import Mathlib

/-
Verification of the spring-mass simulator core (masa-resorte repository).

The definitions below are a shallow embedding of the JavaScript sources:
  * frontend/src/components/points.js : simulateSystem, ejecutarSimulacion,
    the auto-scaling of the chart range;
  * the animation component (SpringMassSimulation) : the frame-advance step.
JavaScript numbers are modelled as real numbers; JS arrays as lists.
-/

namespace MasaResorte

/-- Model of JS String.prototype.includes restricted to a character-by-character
prefix test: matchesAt pat s decides whether pat occurs at the start of s. -/
def matchesAt : List Char → List Char → Bool
  | [], _ => true
  | _ :: _, [] => false
  | p :: ps, c :: cs => p == c && matchesAt ps cs

/-- Substring occurrence on character lists: containsSub s pat decides whether
pat occurs contiguously anywhere in s (the semantics of JS includes). -/
def containsSub : List Char → List Char → Bool
  | _, [] => true
  | [], _ :: _ => false
  | c :: cs, p :: ps => matchesAt (p :: ps) (c :: cs) || containsSub cs (p :: ps)

/-- Model of the JS expression s.includes(sub). -/
def strIncludes (s sub : String) : Bool :=
  containsSub s.toList sub.toList

/-- The parametros state of points.js (masa, constante_resorte,
constante_amortiguamiento, fuerza, tipo_ecuacion). -/
structure Parametros where
  masa : ℝ
  constante_resorte : ℝ
  constante_amortiguamiento : ℝ
  fuerza : String
  tipo_ecuacion : String

/-- The controlSimulacion state of points.js (step_time, stop_time,
valor_inicial, velocidad_inicial). -/
structure ControlSimulacion where
  step_time : ℝ
  stop_time : ℝ
  valor_inicial : ℝ
  velocidad_inicial : ℝ

/-- The parametros field of the simulateSystem result: the input parameters
together with the derived quantities. -/
structure ParametrosOut where
  masa : ℝ
  constante_resorte : ℝ
  constante_amortiguamiento : ℝ
  fuerza : String
  tipo_ecuacion : String
  frecuencia_natural : ℝ
  coeficiente_amortiguamiento : ℝ
  tipo_amortiguamiento : String
  beta : ℝ
  omega_0 : ℝ

/-- The estadisticas field of the simulateSystem result. -/
structure Estadisticas where
  posicion_maxima : ℝ
  posicion_minima : ℝ
  amplitud : ℝ
  velocidad_maxima : ℝ
  velocidad_minima : ℝ
  aceleracion_maxima : ℝ
  aceleracion_minima : ℝ

/-- The full return value of simulateSystem in points.js. -/
structure Resultado where
  tiempo : List ℝ
  posicion : List ℝ
  velocidad : List ℝ
  aceleracion : List ℝ
  parametros : ParametrosOut
  estadisticas : Estadisticas

/-- The fixed sampling step dt = 0.01 of simulateSystem. -/
noncomputable def dt : ℝ := 0.01

/-- steps = Math.floor(totalTime / dt) in simulateSystem. -/
noncomputable def steps (c : ControlSimulacion) : ℤ :=
  Int.floor ((c.stop_time - c.step_time) / dt)

/-- Number of loop iterations of the sampling loop (i runs from 0 to steps
inclusive, so no iteration happens when steps is negative). -/
noncomputable def numSamples (c : ControlSimulacion) : ℕ :=
  (steps c + 1).toNat

/-- The sample time t = step_time + i * dt of iteration i. -/
noncomputable def tiempoAt (c : ControlSimulacion) (i : ℕ) : ℝ :=
  c.step_time + (i : ℝ) * dt

/-- omega = Math.sqrt(constante_resorte / masa) in simulateSystem. -/
noncomputable def omega0 (p : Parametros) : ℝ :=
  Real.sqrt (p.constante_resorte / p.masa)

/-- zeta = constante_amortiguamiento / (2 * Math.sqrt(masa * constante_resorte)). -/
noncomputable def zeta (p : Parametros) : ℝ :=
  p.constante_amortiguamiento / (2 * Real.sqrt (p.masa * p.constante_resorte))

/-- omegaD = omega * Math.sqrt(1 - zeta * zeta), used in the underdamped branch. -/
noncomputable def omegaD (p : Parametros) : ℝ :=
  omega0 p * Real.sqrt (1 - zeta p * zeta p)

/-- B = (velocidad_inicial + zeta * omega * A) / omegaD with A = valor_inicial,
used in the underdamped branch. -/
noncomputable def coefB (p : Parametros) (c : ControlSimulacion) : ℝ :=
  (c.velocidad_inicial + zeta p * omega0 p * c.valor_inicial) / omegaD p

/-- The branch test of simulateSystem:
tipo_ecuacion.includes(unforced-undamped marker) and not includes(forced marker). -/
def esSHM (p : Parametros) : Bool :=
  strIncludes p.tipo_ecuacion "no_amortiguado" && !(strIncludes p.tipo_ecuacion "forzado")

/-- The position sample of simulateSystem at time t, with the three branches
exactly as in the source (simple harmonic, underdamped, simplified other). -/
noncomputable def posicionAt (p : Parametros) (c : ControlSimulacion) (t : ℝ) : ℝ :=
  if esSHM p then
    c.valor_inicial * Real.cos (omega0 p * t) +
      (c.velocidad_inicial / omega0 p) * Real.sin (omega0 p * t)
  else if zeta p < 1 then
    Real.exp (-zeta p * omega0 p * t) *
      (c.valor_inicial * Real.cos (omegaD p * t) + coefB p c * Real.sin (omegaD p * t))
  else
    c.valor_inicial * Real.exp (-zeta p * omega0 p * t) * Real.cos (omega0 p * t)

/-- The velocity sample of simulateSystem at time t. -/
noncomputable def velocidadAt (p : Parametros) (c : ControlSimulacion) (t : ℝ) : ℝ :=
  if esSHM p then
    -c.valor_inicial * omega0 p * Real.sin (omega0 p * t) +
      c.velocidad_inicial * Real.cos (omega0 p * t)
  else if zeta p < 1 then
    Real.exp (-zeta p * omega0 p * t) *
      ((-zeta p * omega0 p * c.valor_inicial + omegaD p * coefB p c) * Real.cos (omegaD p * t) +
        (-omegaD p * c.valor_inicial - zeta p * omega0 p * coefB p c) * Real.sin (omegaD p * t))
  else
    c.valor_inicial * Real.exp (-zeta p * omega0 p * t) *
      (-zeta p * omega0 p * Real.cos (omega0 p * t) - omega0 p * Real.sin (omega0 p * t))

/-- The acceleration sample of simulateSystem at time t: its own closed form in
the simple-harmonic branch, and the equation-of-motion substitution
-(k/m) * position - (b/m) * velocity in the two damped branches. -/
noncomputable def aceleracionAt (p : Parametros) (c : ControlSimulacion) (t : ℝ) : ℝ :=
  if esSHM p then
    -c.valor_inicial * omega0 p * omega0 p * Real.cos (omega0 p * t) -
      c.velocidad_inicial * omega0 p * Real.sin (omega0 p * t)
  else
    -p.constante_resorte / p.masa * posicionAt p c t -
      p.constante_amortiguamiento / p.masa * velocidadAt p c t

/-- The timePoints array built by the sampling loop. -/
noncomputable def tiempoList (c : ControlSimulacion) : List ℝ :=
  (List.range (numSamples c)).map (fun i => tiempoAt c i)

/-- The positionPoints array built by the sampling loop. -/
noncomputable def posicionList (p : Parametros) (c : ControlSimulacion) : List ℝ :=
  (List.range (numSamples c)).map (fun i => posicionAt p c (tiempoAt c i))

/-- The velocityPoints array built by the sampling loop. -/
noncomputable def velocidadList (p : Parametros) (c : ControlSimulacion) : List ℝ :=
  (List.range (numSamples c)).map (fun i => velocidadAt p c (tiempoAt c i))

/-- The accelerationPoints array built by the sampling loop. -/
noncomputable def aceleracionList (p : Parametros) (c : ControlSimulacion) : List ℝ :=
  (List.range (numSamples c)).map (fun i => aceleracionAt p c (tiempoAt c i))

/-- Model of JS Math.max(...l) for the nonempty arrays produced by the loop
(the empty case, which JS sends to negative infinity, is given a junk value). -/
noncomputable def listMax : List ℝ → ℝ
  | [] => 0
  | x :: xs => xs.foldl max x

/-- Model of JS Math.min(...l), junk value on the empty list. -/
noncomputable def listMin : List ℝ → ℝ
  | [] => 0
  | x :: xs => xs.foldl min x

/-- The full simulateSystem function of points.js. -/
noncomputable def simulateSystem (p : Parametros) (c : ControlSimulacion) : Resultado :=
  { tiempo := tiempoList c
    posicion := posicionList p c
    velocidad := velocidadList p c
    aceleracion := aceleracionList p c
    parametros :=
      { masa := p.masa
        constante_resorte := p.constante_resorte
        constante_amortiguamiento := p.constante_amortiguamiento
        fuerza := p.fuerza
        tipo_ecuacion := p.tipo_ecuacion
        frecuencia_natural := omega0 p
        coeficiente_amortiguamiento := zeta p
        tipo_amortiguamiento :=
          if zeta p < 1 then "subamortiguado"
          else if zeta p = 1 then "crítico"
          else "sobreamortiguado"
        beta := p.constante_amortiguamiento / (2 * p.masa)
        omega_0 := omega0 p }
    estadisticas :=
      { posicion_maxima := listMax (posicionList p c)
        posicion_minima := listMin (posicionList p c)
        amplitud := listMax (posicionList p c) - listMin (posicionList p c)
        velocidad_maxima := listMax (velocidadList p c)
        velocidad_minima := listMin (velocidadList p c)
        aceleracion_maxima := listMax (aceleracionList p c)
        aceleracion_minima := listMin (aceleracionList p c) } }

/-- The validation prologue of ejecutarSimulacion in points.js: the three
checks are performed in order before simulateSystem is invoked; a failing
check throws the corresponding Spanish message. -/
noncomputable def ejecutarSimulacion (p : Parametros) (c : ControlSimulacion) :
    Except String Resultado :=
  if p.masa ≤ 0 then Except.error "La masa debe ser positiva"
  else if p.constante_resorte ≤ 0 then Except.error "La constante del resorte debe ser positiva"
  else if p.constante_amortiguamiento < 0 then
    Except.error "La constante de amortiguamiento no puede ser negativa"
  else Except.ok (simulateSystem p c)

/-- The effect of one ejecutarSimulacion call on the stored resultados state:
on success setResultados installs the fresh result, on a thrown validation
error only the error message is set and resultados is untouched. -/
noncomputable def ejecutarSimulacionUpdate (p : Parametros) (c : ControlSimulacion)
    (prev : Option Resultado) : Option Resultado × String :=
  match ejecutarSimulacion p c with
  | Except.error e => (prev, e)
  | Except.ok r => (some r, "")

/-- The escalaGrafico state (y_min, y_max, auto_escala). -/
structure EscalaGrafico where
  y_min : ℝ
  y_max : ℝ
  auto_escala : Bool

/-- The auto-scaling computation of ejecutarSimulacion:
rango = max - min, y_min = min - rango * 0.1, y_max = max + rango * 0.1. -/
noncomputable def autoEscala (posiciones : List ℝ) (esc : EscalaGrafico) : EscalaGrafico :=
  { esc with
    y_min := listMin posiciones - (listMax posiciones - listMin posiciones) * 0.1
    y_max := listMax posiciones + (listMax posiciones - listMin posiciones) * 0.1 }

/-- The scale update performed after a successful simulation: applied only when
auto_escala is set. -/
noncomputable def actualizarEscala (p : Parametros) (c : ControlSimulacion)
    (esc : EscalaGrafico) : EscalaGrafico :=
  if esc.auto_escala then autoEscala (simulateSystem p c).posicion esc else esc

/-- The animation state of SpringMassSimulation: currentFrame is a JS number
(fractional speeds produce fractional frames) plus the playing flag. -/
structure AnimState where
  currentFrame : ℝ
  isPlaying : Bool

/-- One tick of the frame-advance effect of SpringMassSimulation: when playing,
nextFrame = currentFrame + animationSpeed; if nextFrame reaches the sample
count the playback auto-pauses and the frame is clamped to length - 1,
otherwise the frame advances to nextFrame. The interval only runs while
isPlaying holds, so a paused state is left unchanged. -/
noncomputable def animate (len : ℕ) (speed : ℝ) (s : AnimState) : AnimState :=
  if s.isPlaying then
    if (len : ℝ) ≤ s.currentFrame + speed then
      { currentFrame := (len : ℝ) - 1, isPlaying := false }
    else
      { currentFrame := s.currentFrame + speed, isPlaying := true }
  else s

/-- The playback-speed options offered by the speed selector (0.25x to 4x). -/
noncomputable def speedOptions : List ℝ := [0.25, 0.5, 1, 2, 4]

/-- States reachable by the frame-advance relation from a fresh animation
(frame 0, playing), advancing with any selectable speed at each tick. -/
inductive AnimReachable (len : ℕ) : AnimState → Prop
  | init : AnimReachable len { currentFrame := 0, isPlaying := true }
  | step (speed : ℝ) (s : AnimState) :
      speed ∈ speedOptions → AnimReachable len s → AnimReachable len (animate len speed s)

/-- The undamped example of the spec (scenario 1): m = 1, k = 4, b = 0,
kind unforced-undamped. -/
noncomputable def pEx1 : Parametros :=
  { masa := 1, constante_resorte := 4, constante_amortiguamiento := 0,
    fuerza := "0", tipo_ecuacion := "no_amortiguado" }

/-- The control of scenario 1: t from 0 to 10, y0 = 1, v0 = 0. -/
noncomputable def cEx1 : ControlSimulacion :=
  { step_time := 0, stop_time := 10, valor_inicial := 1, velocidad_inicial := 0 }

/-- The critical example of the spec (scenario 2): m = 1, k = 4, b = 4. -/
noncomputable def pCrit : Parametros :=
  { masa := 1, constante_resorte := 4, constante_amortiguamiento := 4,
    fuerza := "0", tipo_ecuacion := "amortiguado" }

/-- The underdamped example of the spec (scenario 3): m = 1, k = 4, b = 0.2. -/
noncomputable def pSub : Parametros :=
  { masa := 1, constante_resorte := 4, constante_amortiguamiento := 0.2,
    fuerza := "0", tipo_ecuacion := "amortiguado" }

theorem getElem_range_map (f : ℕ → ℝ) (n i : ℕ) (hi : i < n) :
    ((List.range n).map f)[i]? = some (f i) := by
  simp [List.getElem?_map, List.getElem?_range, hi]

theorem dt_pos : (0 : ℝ) < dt := by norm_num [dt]

theorem steps_nonneg (c : ControlSimulacion) (h : c.step_time < c.stop_time) :
    0 ≤ steps c := by
  have h1 : (0 : ℝ) ≤ (c.stop_time - c.step_time) / dt :=
    le_of_lt (div_pos (by linarith) dt_pos)
  exact Int.floor_nonneg.mpr h1

theorem numSamples_pos (c : ControlSimulacion) (h : c.step_time < c.stop_time) :
    0 < numSamples c := by
  have h2 := steps_nonneg c h
  unfold numSamples
  omega

theorem sqrt_four : Real.sqrt 4 = 2 := by
  rw [show (4 : ℝ) = 2 ^ 2 by norm_num, Real.sqrt_sq (by norm_num : (0 : ℝ) ≤ 2)]

theorem foldl_max_const (v : ℝ) :
    ∀ xs : List ℝ, (∀ x ∈ xs, x = v) → xs.foldl max v = v := by
  intro xs
  induction xs with
  | nil => intro _; rfl
  | cons a as ih =>
    intro h
    have ha : a = v := h a (by simp)
    have hrest : ∀ x ∈ as, x = v := fun x hx => h x (by simp [hx])
    simp only [List.foldl, ha, max_self]
    exact ih hrest

theorem foldl_min_const (v : ℝ) :
    ∀ xs : List ℝ, (∀ x ∈ xs, x = v) → xs.foldl min v = v := by
  intro xs
  induction xs with
  | nil => intro _; rfl
  | cons a as ih =>
    intro h
    have ha : a = v := h a (by simp)
    have hrest : ∀ x ∈ as, x = v := fun x hx => h x (by simp [hx])
    simp only [List.foldl, ha, min_self]
    exact ih hrest

theorem listMax_const (v : ℝ) (l : List ℝ) (h : ∀ x ∈ l, x = v) (hne : l ≠ []) :
    listMax l = v := by
  cases l with
  | nil => exact absurd rfl hne
  | cons a as =>
    have ha : a = v := h a (by simp)
    have hrest : ∀ x ∈ as, x = v := fun x hx => h x (by simp [hx])
    simp only [listMax, ha]
    exact foldl_max_const v as hrest

theorem listMin_const (v : ℝ) (l : List ℝ) (h : ∀ x ∈ l, x = v) (hne : l ≠ []) :
    listMin l = v := by
  cases l with
  | nil => exact absurd rfl hne
  | cons a as =>
    have ha : a = v := h a (by simp)
    have hrest : ∀ x ∈ as, x = v := fun x hx => h x (by simp [hx])
    simp only [listMin, ha]
    exact foldl_min_const v as hrest

/-- C5: for t_stop > t_start the four sampled sequences all have length
N = floor((t_stop - t_start)/0.01) + 1, with tiempo[0] = t_start and
tiempo[i] = t_start + i * 0.01 for every i below N. -/
theorem c5_sample_grid (p : Parametros) (c : ControlSimulacion)
    (h : c.step_time < c.stop_time) :
    ((simulateSystem p c).tiempo.length = numSamples c ∧
      (simulateSystem p c).posicion.length = numSamples c ∧
      (simulateSystem p c).velocidad.length = numSamples c ∧
      (simulateSystem p c).aceleracion.length = numSamples c) ∧
    ((numSamples c : ℤ) = Int.floor ((c.stop_time - c.step_time) / (0.01 : ℝ)) + 1) ∧
    (simulateSystem p c).tiempo[0]? = some c.step_time ∧
    (∀ i : ℕ, i < numSamples c →
      (simulateSystem p c).tiempo[i]? = some (c.step_time + (i : ℝ) * 0.01)) := by
  refine ⟨⟨?_, ?_, ?_, ?_⟩, ?_, ?_, ?_⟩
  · simp [simulateSystem, tiempoList]
  · simp [simulateSystem, posicionList]
  · simp [simulateSystem, velocidadList]
  · simp [simulateSystem, aceleracionList]
  · have h2 := steps_nonneg c h
    have : (numSamples c : ℤ) = steps c + 1 := by
      unfold numSamples
      omega
    rw [this, steps, dt]
  · have h0 := numSamples_pos c h
    rw [show (simulateSystem p c).tiempo = tiempoList c from rfl, tiempoList,
      getElem_range_map _ _ 0 h0]
    simp [tiempoAt]
  · intro i hi
    rw [show (simulateSystem p c).tiempo = tiempoList c from rfl, tiempoList,
      getElem_range_map _ _ i hi]
    simp [tiempoAt, dt]

theorem c5_sample_grid_witness :
    cEx1.step_time < cEx1.stop_time ∧
      (simulateSystem pEx1 cEx1).tiempo[0]? = some cEx1.step_time := by
  refine ⟨by norm_num [cEx1], ?_⟩
  exact (c5_sample_grid pEx1 cEx1 (by norm_num [cEx1])).2.2.1

/-- C6: the numeric outputs of simulateSystem (the four sampled sequences and
every statistics field) are identical for any two values of the forcing
string fuerza: the forcing expression never enters the computation. -/
theorem c6_fuerza_inert (p : Parametros) (c : ControlSimulacion) (f₁ f₂ : String) :
    (simulateSystem { p with fuerza := f₁ } c).tiempo =
        (simulateSystem { p with fuerza := f₂ } c).tiempo ∧
      (simulateSystem { p with fuerza := f₁ } c).posicion =
        (simulateSystem { p with fuerza := f₂ } c).posicion ∧
      (simulateSystem { p with fuerza := f₁ } c).velocidad =
        (simulateSystem { p with fuerza := f₂ } c).velocidad ∧
      (simulateSystem { p with fuerza := f₁ } c).aceleracion =
        (simulateSystem { p with fuerza := f₂ } c).aceleracion ∧
      (simulateSystem { p with fuerza := f₁ } c).estadisticas =
        (simulateSystem { p with fuerza := f₂ } c).estadisticas :=
  ⟨rfl, rfl, rfl, rfl, rfl⟩

/-- C7: with an invalid parameter (m less-or-equal 0, k less-or-equal 0 or
negative b) ejecutarSimulacion reports an error and leaves the stored
resultados untouched; with valid parameters no validation error is raised and
the freshly generated trajectory is returned. -/
theorem c7_validation (p : Parametros) (c : ControlSimulacion) :
    ((p.masa ≤ 0 ∨ p.constante_resorte ≤ 0 ∨ p.constante_amortiguamiento < 0) →
      (∃ e : String, ejecutarSimulacion p c = Except.error e) ∧
        ∀ prev : Option Resultado, (ejecutarSimulacionUpdate p c prev).1 = prev) ∧
    ((0 < p.masa ∧ 0 < p.constante_resorte ∧ 0 ≤ p.constante_amortiguamiento) →
      ejecutarSimulacion p c = Except.ok (simulateSystem p c) ∧
        ∀ prev : Option Resultado,
          (ejecutarSimulacionUpdate p c prev).1 = some (simulateSystem p c)) := by
  constructor
  · intro hbad
    have herr : ∃ e : String, ejecutarSimulacion p c = Except.error e := by
      unfold ejecutarSimulacion
      by_cases h1 : p.masa ≤ 0
      · exact ⟨_, by rw [if_pos h1]⟩
      · by_cases h2 : p.constante_resorte ≤ 0
        · exact ⟨_, by rw [if_neg h1, if_pos h2]⟩
        · by_cases h3 : p.constante_amortiguamiento < 0
          · exact ⟨_, by rw [if_neg h1, if_neg h2, if_pos h3]⟩
          · rcases hbad with h | h | h
            · exact absurd h h1
            · exact absurd h h2
            · exact absurd h h3
    refine ⟨herr, ?_⟩
    intro prev
    obtain ⟨e, he⟩ := herr
    simp [ejecutarSimulacionUpdate, he]
  · rintro ⟨h1, h2, h3⟩
    have hok : ejecutarSimulacion p c = Except.ok (simulateSystem p c) := by
      unfold ejecutarSimulacion
      rw [if_neg (not_le.mpr h1), if_neg (not_le.mpr h2), if_neg (not_lt.mpr h3)]
    refine ⟨hok, ?_⟩
    intro prev
    simp [ejecutarSimulacionUpdate, hok]

/-- A concrete invalid parameter set: negative mass. -/
noncomputable def pBad : Parametros :=
  { masa := -1, constante_resorte := 4, constante_amortiguamiento := 0,
    fuerza := "0", tipo_ecuacion := "amortiguado" }

theorem c7_validation_witness :
    (∃ e : String, ejecutarSimulacion pBad cEx1 = Except.error e) ∧
      (ejecutarSimulacionUpdate pBad cEx1 none).1 = none ∧
      ejecutarSimulacion pEx1 cEx1 = Except.ok (simulateSystem pEx1 cEx1) := by
  have hbad := (c7_validation pBad cEx1).1 (Or.inl (by norm_num [pBad]))
  have hgood := (c7_validation pEx1 cEx1).2 (by norm_num [pEx1])
  exact ⟨hbad.1, hbad.2 none, hgood.1⟩

theorem esSHM_no_amortiguado (p : Parametros) (h : p.tipo_ecuacion = "no_amortiguado") :
    esSHM p = true := by
  simp only [esSHM, h]
  decide

theorem omega0_pEx1 : omega0 pEx1 = 2 := by
  rw [omega0, show pEx1.constante_resorte / pEx1.masa = 4 by norm_num [pEx1], sqrt_four]

theorem posicion_getElem (p : Parametros) (c : ControlSimulacion) (i : ℕ)
    (hi : i < numSamples c) :
    (simulateSystem p c).posicion[i]? = some (posicionAt p c (tiempoAt c i)) := by
  rw [show (simulateSystem p c).posicion = posicionList p c from rfl, posicionList,
    getElem_range_map _ _ i hi]

theorem velocidad_getElem (p : Parametros) (c : ControlSimulacion) (i : ℕ)
    (hi : i < numSamples c) :
    (simulateSystem p c).velocidad[i]? = some (velocidadAt p c (tiempoAt c i)) := by
  rw [show (simulateSystem p c).velocidad = velocidadList p c from rfl, velocidadList,
    getElem_range_map _ _ i hi]

theorem aceleracion_getElem (p : Parametros) (c : ControlSimulacion) (i : ℕ)
    (hi : i < numSamples c) :
    (simulateSystem p c).aceleracion[i]? = some (aceleracionAt p c (tiempoAt c i)) := by
  rw [show (simulateSystem p c).aceleracion = aceleracionList p c from rfl, aceleracionList,
    getElem_range_map _ _ i hi]

/-- C1: with kind unforced-undamped and valid parameters, every sample follows
the simple-harmonic closed form at t_i = t_start + i * 0.01; at t_start = 0 the
first sample reproduces the initial conditions exactly; and the scenario-1
input (m = 1, k = 4, b = 0, y0 = 1, v0 = 0) samples cos(2 t_i). -/
theorem c1_shm (p : Parametros) (c : ControlSimulacion)
    (htipo : p.tipo_ecuacion = "no_amortiguado")
    (hm : 0 < p.masa) (hk : 0 < p.constante_resorte)
    (hb : 0 ≤ p.constante_amortiguamiento) (ht : c.step_time < c.stop_time) :
    (∀ i : ℕ, i < numSamples c →
      (simulateSystem p c).posicion[i]? =
          some (c.valor_inicial * Real.cos (omega0 p * tiempoAt c i) +
            (c.velocidad_inicial / omega0 p) * Real.sin (omega0 p * tiempoAt c i)) ∧
        (simulateSystem p c).velocidad[i]? =
          some (-c.valor_inicial * omega0 p * Real.sin (omega0 p * tiempoAt c i) +
            c.velocidad_inicial * Real.cos (omega0 p * tiempoAt c i)) ∧
        (simulateSystem p c).aceleracion[i]? =
          some (-c.valor_inicial * omega0 p * omega0 p * Real.cos (omega0 p * tiempoAt c i) -
            c.velocidad_inicial * omega0 p * Real.sin (omega0 p * tiempoAt c i))) ∧
    (c.step_time = 0 →
      (simulateSystem p c).posicion[0]? = some c.valor_inicial ∧
        (simulateSystem p c).velocidad[0]? = some c.velocidad_inicial) ∧
    (∀ i : ℕ, i < numSamples cEx1 →
      (simulateSystem pEx1 cEx1).posicion[i]? = some (Real.cos (2 * tiempoAt cEx1 i))) := by
  have hE : esSHM p = true := esSHM_no_amortiguado p htipo
  refine ⟨?_, ?_, ?_⟩
  · intro i hi
    refine ⟨?_, ?_, ?_⟩
    · rw [posicion_getElem p c i hi]
      simp [posicionAt, hE]
    · rw [velocidad_getElem p c i hi]
      simp [velocidadAt, hE]
    · rw [aceleracion_getElem p c i hi]
      simp [aceleracionAt, hE]
  · intro h0
    have hlt := numSamples_pos c ht
    have ht0 : tiempoAt c 0 = 0 := by simp [tiempoAt, h0]
    constructor
    · rw [posicion_getElem p c 0 hlt]
      simp [posicionAt, hE, ht0]
    · rw [velocidad_getElem p c 0 hlt]
      simp [velocidadAt, hE, ht0]
  · intro i hi
    have hE1 : esSHM pEx1 = true := esSHM_no_amortiguado pEx1 rfl
    rw [posicion_getElem pEx1 cEx1 i hi]
    simp [posicionAt, hE1, omega0_pEx1]
    norm_num [cEx1]

theorem c1_shm_witness :
    (simulateSystem pEx1 cEx1).posicion[0]? = some (Real.cos (2 * tiempoAt cEx1 0)) := by
  have h := c1_shm pEx1 cEx1 rfl (by norm_num [pEx1]) (by norm_num [pEx1])
    (by norm_num [pEx1]) (by norm_num [cEx1])
  exact h.2.2 0 (numSamples_pos cEx1 (by norm_num [cEx1]))

theorem zeta_pCrit : zeta pCrit = 1 := by
  rw [zeta, show pCrit.masa * pCrit.constante_resorte = 4 by norm_num [pCrit], sqrt_four]
  norm_num [pCrit]

theorem omega0_pCrit : omega0 pCrit = 2 := by
  rw [omega0, show pCrit.constante_resorte / pCrit.masa = 4 by norm_num [pCrit], sqrt_four]

/-- C4: the reported tipo_amortiguamiento string is the exact damping-regime
classification of zeta = b / (2 sqrt(m k)); for the scenario-2 input
(m = 1, k = 4, b = 4) zeta is 1, the regime reads critico and omega_0 is 2. -/
theorem c4_regime (p : Parametros) (c : ControlSimulacion) :
    (((simulateSystem p c).parametros.tipo_amortiguamiento = "subamortiguado") ↔
        zeta p < 1) ∧
      (((simulateSystem p c).parametros.tipo_amortiguamiento = "crítico") ↔ zeta p = 1) ∧
      (((simulateSystem p c).parametros.tipo_amortiguamiento = "sobreamortiguado") ↔
        1 < zeta p) ∧
      (zeta pCrit = 1 ∧
        (simulateSystem pCrit c).parametros.tipo_amortiguamiento = "crítico" ∧
        (simulateSystem pCrit c).parametros.omega_0 = 2) := by
  have hred : ∀ q : Parametros, (simulateSystem q c).parametros.tipo_amortiguamiento =
      (if zeta q < 1 then "subamortiguado"
        else if zeta q = 1 then "crítico" else "sobreamortiguado") := fun q => rfl
  have hcrit : (simulateSystem pCrit c).parametros.tipo_amortiguamiento = "crítico" := by
    rw [hred, zeta_pCrit]
    norm_num
  refine ⟨?_, ?_, ?_, zeta_pCrit, hcrit, ?_⟩
  · rw [hred]
    rcases lt_trichotomy (zeta p) 1 with h | h | h
    · simp [h]
    · rw [if_neg (by rw [h]; exact lt_irrefl 1), if_pos h]
      constructor
      · intro hs
        exact absurd hs (by decide)
      · intro hlt
        rw [h] at hlt
        exact absurd hlt (lt_irrefl 1)
    · rw [if_neg (not_lt.mpr h.le), if_neg (ne_of_gt h)]
      constructor
      · intro hs
        exact absurd hs (by decide)
      · intro hlt
        exact absurd hlt (not_lt.mpr h.le)
  · rw [hred]
    rcases lt_trichotomy (zeta p) 1 with h | h | h
    · rw [if_pos h]
      constructor
      · intro hs
        exact absurd hs (by decide)
      · intro he
        rw [he] at h
        exact absurd h (lt_irrefl 1)
    · simp [h]
    · rw [if_neg (not_lt.mpr h.le), if_neg (ne_of_gt h)]
      constructor
      · intro hs
        exact absurd hs (by decide)
      · intro he
        rw [he] at h
        exact absurd h (lt_irrefl 1)
  · rw [hred]
    rcases lt_trichotomy (zeta p) 1 with h | h | h
    · rw [if_pos h]
      constructor
      · intro hs
        exact absurd hs (by decide)
      · intro hgt
        exact absurd h (not_lt.mpr hgt.le)
    · rw [if_neg (by rw [h]; exact lt_irrefl 1), if_pos h]
      constructor
      · intro hs
        exact absurd hs (by decide)
      · intro hgt
        rw [h] at hgt
        exact absurd hgt (lt_irrefl 1)
    · rw [if_neg (not_lt.mpr h.le), if_neg (ne_of_gt h)]
      simp [h]
  · exact omega0_pCrit

theorem hasDerivAt_dampedOsc (a A B w t : ℝ) :
    HasDerivAt
      (fun s : ℝ => Real.exp (a * s) * (A * Real.cos (w * s) + B * Real.sin (w * s)))
      (Real.exp (a * t) *
        ((a * A + w * B) * Real.cos (w * t) + (a * B - w * A) * Real.sin (w * t))) t := by
  have hlin : HasDerivAt (fun s : ℝ => a * s) a t := by
    simpa using (hasDerivAt_id t).const_mul a
  have hw : HasDerivAt (fun s : ℝ => w * s) w t := by
    simpa using (hasDerivAt_id t).const_mul w
  have hexp := hlin.exp
  have hsum := (hw.cos.const_mul A).add (hw.sin.const_mul B)
  have hmul := hexp.mul hsum
  convert hmul using 1
  ring

theorem hasDerivAt_expCos (C a w t : ℝ) :
    HasDerivAt (fun s : ℝ => C * Real.exp (a * s) * Real.cos (w * s))
      (C * Real.exp (a * t) * (a * Real.cos (w * t) - w * Real.sin (w * t))) t := by
  have hlin : HasDerivAt (fun s : ℝ => a * s) a t := by
    simpa using (hasDerivAt_id t).const_mul a
  have hw : HasDerivAt (fun s : ℝ => w * s) w t := by
    simpa using (hasDerivAt_id t).const_mul w
  have hmul := (hlin.exp.const_mul C).mul hw.cos
  convert hmul using 1
  ring

/-- C2: on the underdamped branch (not the unforced-undamped kind, zeta below 1)
every sample carries the decaying-oscillation closed form with A = y0 and
B = (v0 + zeta omega0 A) / omegaD, the acceleration samples satisfy the
equation-of-motion substitution -(k/m) pos - (b/m) vel, and the velocity
formula is the exact time derivative of the position formula. -/
theorem c2_underdamped (p : Parametros) (c : ControlSimulacion)
    (hB : esSHM p = false) (hz : zeta p < 1) :
    (∀ i : ℕ, i < numSamples c →
      (simulateSystem p c).posicion[i]? =
          some (Real.exp (-zeta p * omega0 p * tiempoAt c i) *
            (c.valor_inicial * Real.cos (omegaD p * tiempoAt c i) +
              coefB p c * Real.sin (omegaD p * tiempoAt c i))) ∧
        (simulateSystem p c).velocidad[i]? =
          some (Real.exp (-zeta p * omega0 p * tiempoAt c i) *
            ((-zeta p * omega0 p * c.valor_inicial + omegaD p * coefB p c) *
                Real.cos (omegaD p * tiempoAt c i) +
              (-omegaD p * c.valor_inicial - zeta p * omega0 p * coefB p c) *
                Real.sin (omegaD p * tiempoAt c i))) ∧
        (simulateSystem p c).aceleracion[i]? =
          some (-p.constante_resorte / p.masa * posicionAt p c (tiempoAt c i) -
            p.constante_amortiguamiento / p.masa * velocidadAt p c (tiempoAt c i))) ∧
    (∀ t : ℝ, HasDerivAt (posicionAt p c) (velocidadAt p c t) t) := by
  constructor
  · intro i hi
    refine ⟨?_, ?_, ?_⟩
    · rw [posicion_getElem p c i hi]
      simp [posicionAt, hB, hz]
    · rw [velocidad_getElem p c i hi]
      simp [velocidadAt, hB, hz]
    · rw [aceleracion_getElem p c i hi]
      simp [aceleracionAt, hB]
  · intro t
    have hpos : posicionAt p c = fun s : ℝ =>
        Real.exp (-zeta p * omega0 p * s) *
          (c.valor_inicial * Real.cos (omegaD p * s) + coefB p c * Real.sin (omegaD p * s)) := by
      funext s
      simp [posicionAt, hB, hz]
    have hvel : velocidadAt p c t =
        Real.exp (-zeta p * omega0 p * t) *
          ((-zeta p * omega0 p * c.valor_inicial + omegaD p * coefB p c) *
              Real.cos (omegaD p * t) +
            (-omegaD p * c.valor_inicial - zeta p * omega0 p * coefB p c) *
              Real.sin (omegaD p * t)) := by
      simp [velocidadAt, hB, hz]
    rw [hpos, hvel]
    have h := hasDerivAt_dampedOsc (-zeta p * omega0 p) c.valor_inicial (coefB p c) (omegaD p) t
    convert h using 1
    ring

theorem zeta_pSub : zeta pSub = 0.05 := by
  rw [zeta, show pSub.masa * pSub.constante_resorte = 4 by norm_num [pSub], sqrt_four]
  norm_num [pSub]

theorem esSHM_pSub : esSHM pSub = false := by
  decide

theorem c2_underdamped_witness :
    HasDerivAt (posicionAt pSub cEx1) (velocidadAt pSub cEx1 0) 0 := by
  have hz : zeta pSub < 1 := by
    rw [zeta_pSub]
    norm_num
  exact (c2_underdamped pSub cEx1 esSHM_pSub hz).2 0

/-- C3: on the remaining branch (zeta at least 1) every sample carries the
simplified closed form y0 exp(-zeta omega0 t) cos(omega0 t), the velocity is
its analytic derivative, and the acceleration samples come from the same
equation-of-motion substitution; the simplified form is preserved as-is. -/
theorem c3_overdamped (p : Parametros) (c : ControlSimulacion)
    (hB : esSHM p = false) (hz : ¬ zeta p < 1) :
    (∀ i : ℕ, i < numSamples c →
      (simulateSystem p c).posicion[i]? =
          some (c.valor_inicial * Real.exp (-zeta p * omega0 p * tiempoAt c i) *
            Real.cos (omega0 p * tiempoAt c i)) ∧
        (simulateSystem p c).velocidad[i]? =
          some (c.valor_inicial * Real.exp (-zeta p * omega0 p * tiempoAt c i) *
            (-zeta p * omega0 p * Real.cos (omega0 p * tiempoAt c i) -
              omega0 p * Real.sin (omega0 p * tiempoAt c i))) ∧
        (simulateSystem p c).aceleracion[i]? =
          some (-p.constante_resorte / p.masa * posicionAt p c (tiempoAt c i) -
            p.constante_amortiguamiento / p.masa * velocidadAt p c (tiempoAt c i))) ∧
    (∀ t : ℝ, HasDerivAt (posicionAt p c) (velocidadAt p c t) t) := by
  constructor
  · intro i hi
    refine ⟨?_, ?_, ?_⟩
    · rw [posicion_getElem p c i hi]
      simp [posicionAt, hB, hz]
    · rw [velocidad_getElem p c i hi]
      simp [velocidadAt, hB, hz]
    · rw [aceleracion_getElem p c i hi]
      simp [aceleracionAt, hB]
  · intro t
    have hpos : posicionAt p c = fun s : ℝ =>
        c.valor_inicial * Real.exp (-zeta p * omega0 p * s) * Real.cos (omega0 p * s) := by
      funext s
      simp [posicionAt, hB, hz]
    have hvel : velocidadAt p c t =
        c.valor_inicial * Real.exp (-zeta p * omega0 p * t) *
          (-zeta p * omega0 p * Real.cos (omega0 p * t) -
            omega0 p * Real.sin (omega0 p * t)) := by
      simp [velocidadAt, hB, hz]
    rw [hpos, hvel]
    exact hasDerivAt_expCos c.valor_inicial (-zeta p * omega0 p) (omega0 p) t

theorem esSHM_pCrit : esSHM pCrit = false := by
  decide

theorem c3_overdamped_witness :
    HasDerivAt (posicionAt pCrit cEx1) (velocidadAt pCrit cEx1 0) 0 := by
  have hz : ¬ zeta pCrit < 1 := by
    rw [zeta_pCrit]
    exact lt_irrefl 1
  exact (c3_overdamped pCrit cEx1 esSHM_pCrit hz).2 0

/-- A control producing a constant (identically zero) position series:
y0 = 0, v0 = 0 on the unforced-undamped branch. -/
noncomputable def cZero : ControlSimulacion :=
  { step_time := 0, stop_time := 1, valor_inicial := 0, velocidad_inicial := 0 }

/-- The initial chart scale of points.js with auto-scaling enabled. -/
noncomputable def escalaInicial : EscalaGrafico :=
  { y_min := -2, y_max := 2, auto_escala := true }

theorem posicion_cZero_all_zero : ∀ x ∈ (simulateSystem pEx1 cZero).posicion, x = 0 := by
  intro x hx
  rw [show (simulateSystem pEx1 cZero).posicion = posicionList pEx1 cZero from rfl,
    posicionList, List.mem_map] at hx
  obtain ⟨i, _, hxe⟩ := hx
  rw [← hxe]
  have hE : esSHM pEx1 = true := esSHM_no_amortiguado pEx1 rfl
  simp [posicionAt, hE, cZero]

theorem posicion_cZero_ne_nil : (simulateSystem pEx1 cZero).posicion ≠ [] := by
  have hlen : 0 < (simulateSystem pEx1 cZero).posicion.length := by
    rw [show (simulateSystem pEx1 cZero).posicion = posicionList pEx1 cZero from rfl]
    simp only [posicionList, List.length_map, List.length_range]
    exact numSamples_pos cZero (by norm_num [cZero])
  exact List.ne_nil_of_length_pos hlen

/-- C8 counterexample: on the zero-range trajectory of cZero (constant zero
position) the auto-scaled range collapses, y_min equals y_max, so no minimum
visible margin separates them. -/
theorem c8_counterexample :
    escalaInicial.auto_escala = true ∧
      listMax (simulateSystem pEx1 cZero).posicion =
        listMin (simulateSystem pEx1 cZero).posicion ∧
      ¬ ((actualizarEscala pEx1 cZero escalaInicial).y_min <
          (actualizarEscala pEx1 cZero escalaInicial).y_max) := by
  have hmax := listMax_const 0 _ posicion_cZero_all_zero posicion_cZero_ne_nil
  have hmin := listMin_const 0 _ posicion_cZero_all_zero posicion_cZero_ne_nil
  refine ⟨rfl, by rw [hmax, hmin], ?_⟩
  have hesc : actualizarEscala pEx1 cZero escalaInicial =
      autoEscala (simulateSystem pEx1 cZero).posicion escalaInicial := rfl
  rw [hesc]
  simp [autoEscala, hmax, hmin]

/-- C8 amended: when auto-scaling is enabled and the position series is
constant, the updated bounds are y_min = y_max = the constant value: the
range degenerates and no minimum margin is applied. -/
theorem c8_amended (p : Parametros) (c : ControlSimulacion) (esc : EscalaGrafico) (v : ℝ)
    (hauto : esc.auto_escala = true)
    (hne : (simulateSystem p c).posicion ≠ [])
    (hconst : ∀ x ∈ (simulateSystem p c).posicion, x = v) :
    (actualizarEscala p c esc).y_min = v ∧ (actualizarEscala p c esc).y_max = v := by
  have hmax := listMax_const v _ hconst hne
  have hmin := listMin_const v _ hconst hne
  constructor <;> simp [actualizarEscala, hauto, autoEscala, hmax, hmin]

theorem c8_amended_witness :
    (actualizarEscala pEx1 cZero escalaInicial).y_min = 0 ∧
      (actualizarEscala pEx1 cZero escalaInicial).y_max = 0 :=
  c8_amended pEx1 cZero escalaInicial 0 rfl posicion_cZero_ne_nil posicion_cZero_all_zero

/-- A window of 0.015 seconds: floor(0.015/0.01) = 1, so two samples. -/
noncomputable def cSmall : ControlSimulacion :=
  { step_time := 0, stop_time := 0.015, valor_inicial := 0, velocidad_inicial := 0 }

theorem length_cSmall : (simulateSystem pEx1 cSmall).posicion.length = 2 := by
  have hfl : steps cSmall = 1 := by
    rw [steps, show (cSmall.stop_time - cSmall.step_time) / dt = 3 / 2 by
      norm_num [cSmall, dt]]
    rw [Int.floor_eq_iff]
    constructor <;> norm_num
  rw [show (simulateSystem pEx1 cSmall).posicion = posicionList pEx1 cSmall from rfl]
  simp [posicionList, numSamples, hfl]

theorem animate_half_0 :
    animate 2 (1 / 2) { currentFrame := 0, isPlaying := true } =
      { currentFrame := 1 / 2, isPlaying := true } := by
  unfold animate
  norm_num

theorem animate_half_1 :
    animate 2 (1 / 2) { currentFrame := 1 / 2, isPlaying := true } =
      { currentFrame := 1, isPlaying := true } := by
  unfold animate
  norm_num

theorem animate_half_2 :
    animate 2 (1 / 2) { currentFrame := 1, isPlaying := true } =
      { currentFrame := 3 / 2, isPlaying := true } := by
  unfold animate
  norm_num

/-- C9 counterexample: a two-sample trajectory is producible (window 0.015s),
and with the selectable 0.5x speed the advance relation reaches frame 1.5,
which exceeds the last sample index length - 1 = 1. -/
theorem c9_counterexample :
    (simulateSystem pEx1 cSmall).posicion.length = 2 ∧
      AnimReachable 2 { currentFrame := 3 / 2, isPlaying := true } ∧
      ¬ ((3 / 2 : ℝ) ≤ (2 : ℝ) - 1) := by
  refine ⟨length_cSmall, ?_, by norm_num⟩
  have hmem : (1 / 2 : ℝ) ∈ speedOptions := by
    simp [speedOptions]
    norm_num
  have h0 := @AnimReachable.init 2
  have h1 := @AnimReachable.step 2 (1 / 2) _ hmem h0
  rw [animate_half_0] at h1
  have h2 := @AnimReachable.step 2 (1 / 2) _ hmem h1
  rw [animate_half_1] at h2
  have h3 := @AnimReachable.step 2 (1 / 2) _ hmem h2
  rw [animate_half_2] at h3
  exact h3

/-- C9 amended: when the next frame reaches or passes the sample count the
step pauses playback and clamps the frame to length - 1; every reachable
frame stays strictly below the sample count, and its floor never exceeds
length - 1, but the raw fractional frame itself can exceed length - 1. -/
theorem c9_amended :
    (∀ (len : ℕ) (speed : ℝ) (s : AnimState), s.isPlaying = true →
        (len : ℝ) ≤ s.currentFrame + speed →
        animate len speed s = { currentFrame := (len : ℝ) - 1, isPlaying := false }) ∧
      (∀ (len : ℕ) (s : AnimState), 1 ≤ len → AnimReachable len s →
        s.currentFrame < (len : ℝ)) ∧
      (∀ (len : ℕ) (s : AnimState), 1 ≤ len → AnimReachable len s →
        Int.floor s.currentFrame ≤ (len : ℤ) - 1) := by
  have hclamp : ∀ (len : ℕ) (speed : ℝ) (s : AnimState), s.isPlaying = true →
      (len : ℝ) ≤ s.currentFrame + speed →
      animate len speed s = { currentFrame := (len : ℝ) - 1, isPlaying := false } := by
    intro len speed s hp hc
    unfold animate
    rw [if_pos hp, if_pos hc]
  have hinv : ∀ (len : ℕ) (s : AnimState), 1 ≤ len → AnimReachable len s →
      s.currentFrame < (len : ℝ) := by
    intro len s hlen hr
    induction hr with
    | init =>
      show (0 : ℝ) < (len : ℝ)
      exact_mod_cast hlen
    | step speed s hmem hs ih =>
      unfold animate
      by_cases hp : s.isPlaying = true
      · rw [if_pos hp]
        by_cases hc : (len : ℝ) ≤ s.currentFrame + speed
        · rw [if_pos hc]
          show (len : ℝ) - 1 < (len : ℝ)
          linarith
        · rw [if_neg hc]
          exact not_le.mp hc
      · rw [if_neg hp]
        exact ih
  refine ⟨hclamp, hinv, ?_⟩
  intro len s hlen hr
  have h := hinv len s hlen hr
  have hfl : Int.floor s.currentFrame < (len : ℤ) := by
    rw [Int.floor_lt]
    exact_mod_cast h
  omega

theorem c9_amended_witness :
    animate 2 1 { currentFrame := 3 / 2, isPlaying := true } =
        { currentFrame := (2 : ℝ) - 1, isPlaying := false } ∧
      (AnimState.mk 0 true).currentFrame < ((2 : ℕ) : ℝ) := by
  constructor
  · refine c9_amended.1 2 1 { currentFrame := 3 / 2, isPlaying := true } rfl ?_
    show ((2 : ℕ) : ℝ) ≤ 3 / 2 + 1
    norm_num
  · exact c9_amended.2.1 2 (AnimState.mk 0 true) (by norm_num) AnimReachable.init

/-- C10: on the simplified branch (zeta at least 1) the sampled trajectory
ignores the requested initial velocity entirely: changing velocidad_inicial
leaves all three series unchanged, and at t_start = 0 the first velocity
sample equals -(zeta omega0 y0) whatever v0 is. -/
theorem c10_v0_ignored (p : Parametros) (c : ControlSimulacion) (v : ℝ)
    (hB : esSHM p = false) (hz : ¬ zeta p < 1) :
    ((simulateSystem p { c with velocidad_inicial := v }).posicion =
        (simulateSystem p c).posicion ∧
      (simulateSystem p { c with velocidad_inicial := v }).velocidad =
        (simulateSystem p c).velocidad ∧
      (simulateSystem p { c with velocidad_inicial := v }).aceleracion =
        (simulateSystem p c).aceleracion) ∧
    (c.step_time = 0 → c.step_time < c.stop_time →
      (simulateSystem p { c with velocidad_inicial := v }).velocidad[0]? =
        some (-(zeta p * omega0 p * c.valor_inicial))) := by
  have hns : numSamples { c with velocidad_inicial := v } = numSamples c := rfl
  have htm : ∀ i : ℕ, tiempoAt { c with velocidad_inicial := v } i = tiempoAt c i :=
    fun _ => rfl
  have hpos : ∀ t : ℝ, posicionAt p { c with velocidad_inicial := v } t = posicionAt p c t := by
    intro t
    simp [posicionAt, hB, hz]
  have hvel : ∀ t : ℝ, velocidadAt p { c with velocidad_inicial := v } t =
      velocidadAt p c t := by
    intro t
    simp [velocidadAt, hB, hz]
  have hacc : ∀ t : ℝ, aceleracionAt p { c with velocidad_inicial := v } t =
      aceleracionAt p c t := by
    intro t
    simp [aceleracionAt, hB, hpos t, hvel t]
  refine ⟨⟨?_, ?_, ?_⟩, ?_⟩
  · show posicionList p { c with velocidad_inicial := v } = posicionList p c
    unfold posicionList
    rw [hns]
    apply congrArg (fun g : ℕ → ℝ => List.map g (List.range (numSamples c)))
    funext i
    rw [htm i, hpos (tiempoAt c i)]
  · show velocidadList p { c with velocidad_inicial := v } = velocidadList p c
    unfold velocidadList
    rw [hns]
    apply congrArg (fun g : ℕ → ℝ => List.map g (List.range (numSamples c)))
    funext i
    rw [htm i, hvel (tiempoAt c i)]
  · show aceleracionList p { c with velocidad_inicial := v } = aceleracionList p c
    unfold aceleracionList
    rw [hns]
    apply congrArg (fun g : ℕ → ℝ => List.map g (List.range (numSamples c)))
    funext i
    rw [htm i, hacc (tiempoAt c i)]
  · intro h0 hlt
    have hn : 0 < numSamples { c with velocidad_inicial := v } := numSamples_pos _ hlt
    rw [velocidad_getElem p _ 0 hn]
    have ht0 : tiempoAt { c with velocidad_inicial := v } 0 = 0 := by
      simp [tiempoAt, h0]
    rw [ht0]
    have : velocidadAt p { c with velocidad_inicial := v } 0 =
        -(zeta p * omega0 p * c.valor_inicial) := by
      simp [velocidadAt, hB, hz]
      ring
    rw [this]

theorem c10_v0_ignored_witness :
    (simulateSystem pCrit { cEx1 with velocidad_inicial := 5 }).posicion =
      (simulateSystem pCrit cEx1).posicion := by
  have hz : ¬ zeta pCrit < 1 := by
    rw [zeta_pCrit]
    exact lt_irrefl 1
  exact (c10_v0_ignored pCrit cEx1 5 esSHM_pCrit hz).1.1

end MasaResorte
